import Mathlib

/-!
Verification of the REST adapter `src/server/adapter/rest/transaction.resource.js`
of manage-my-money-server.

The file is a thin Express controller: each route handler extracts request
data, coerces date strings with `new Date(...)`, delegates to the external
`transactionService`, and translates the service's promise outcome into an
HTTP response, logging generic errors.

Shallow embedding choices:
* JS values visible to this layer are modelled by `JsVal`; `new Date(v)` is
  modelled by the injective constructor `JsVal.date v` (the adapter never
  inspects the resulting date, it only constructs and forwards it).
* `req.body` is a JS object, modelled as an association list of fields.
* The external `transactionService` is an oracle: a structure of total
  functions returning `Except JsError JsVal`, standing for a settled promise
  (fulfilled with a value or rejected with an error).
* A handler is a total Lean function from the request and the oracle to an
  `Outcome`: the HTTP response it sends, the list of errors passed to
  `log.error`, the trace of service calls it makes, and the final state of
  the mutable `req.body` object.  Totality of the handlers mirrors the fact
  that every promise chain ends in a catch-all: no error propagates out of a
  handler.
-/

namespace ManageMyMoney

/-- JavaScript values as seen by this adapter layer. -/
inductive JsVal : Type where
  /-- `undefined` (an absent query parameter or missing object field). -/
  | undefined : JsVal
  /-- a string value -/
  | str : String → JsVal
  /-- a number value -/
  | num : Int → JsVal
  /-- `new Date(v)`: the date object constructed from `v`. -/
  | date : JsVal → JsVal
  /-- an object with the given fields -/
  | obj : List (String × JsVal) → JsVal
  /-- an array -/
  | arr : List JsVal → JsVal

/-- JS truthiness of a `JsVal` (objects, arrays and dates are truthy;
`undefined`, the empty string and zero are falsy). -/
def truthy : JsVal → Bool
  | .undefined => false
  | .str s => s != ""
  | .num n => n != 0
  | .date _ => true
  | .obj _ => true
  | .arr _ => true

/-- `typeof v !== 'undefined'`. -/
def isDefined : JsVal → Bool
  | .undefined => false
  | _ => true

/-- Reading field `k` of a JS object given as an association list; absent
fields read as `undefined`. -/
def lookupField : List (String × JsVal) → String → JsVal
  | [], _ => .undefined
  | (k', v) :: rest, k => if k' = k then v else lookupField rest k

/-- Assigning field `k` of a JS object: replace the binding if present,
append it otherwise. -/
def setField : List (String × JsVal) → String → JsVal → List (String × JsVal)
  | [], k, v => [(k, v)]
  | (k', v') :: rest, k, v =>
    if k' = k then (k, v) :: rest else (k', v') :: setField rest k v

/-- Reading a property of an arbitrary JS value (used for `transaction.id`
on a service result); non-objects read as `undefined`. -/
def jsGet : JsVal → String → JsVal
  | .obj fields, k => lookupField fields k
  | _, _ => .undefined

/-- The error kinds this layer distinguishes: Bluebird's
`.catch(errors.NotFoundError, ...)` catches exactly the not-found kind. -/
inductive ErrKind : Type where
  | notFound : ErrKind
  | generic : ErrKind
deriving DecidableEq

/-- A service error: its kind together with its `toString()` rendering. -/
structure JsError : Type where
  kind : ErrKind
  str : String
deriving DecidableEq

/-- The external `transactionService` collaborator, modelled as an oracle of
total functions returning settled promise outcomes. -/
structure TransactionService : Type where
  createTransaction : JsVal → Except JsError JsVal
  updateTransaction : JsVal → Except JsError JsVal
  getTransaction : JsVal → Except JsError JsVal
  getTransactions : JsVal → Except JsError JsVal
  getTransactionsByCategory : JsVal → JsVal → Except JsError JsVal
  deleteTransaction : JsVal → Except JsError JsVal

/-- One call made to the service, recorded with its actual arguments. -/
inductive SvcCall : Type where
  | create : JsVal → SvcCall
  | update : JsVal → SvcCall
  | get : JsVal → SvcCall
  | list : JsVal → SvcCall
  | byCategory : JsVal → JsVal → SvcCall
  | delete : JsVal → SvcCall

/-- The HTTP response a handler sends: `res.send(x)` is status 200 with body
`x`; `res.status(s).send(x)` is status `s`; `res.status(204).send()` has no
body. -/
structure Response : Type where
  status : Nat
  body : Option JsVal

/-- The JSON error body `{'message': s}`. -/
def msgObj (s : String) : JsVal :=
  .obj [("message", .str s)]

/-- The incoming HTTP request, as the handlers read it: `req.params.id`,
`req.body` (a JS object) and the four query parameters, each a string or
`undefined`. -/
structure Request : Type where
  paramId : String
  body : List (String × JsVal)
  queryAccount : JsVal
  queryGroupByCategory : JsVal
  queryStartDate : JsVal
  queryEndDate : JsVal

/-- Everything observable a handler does: the response it sends, the errors
it passes to `log.error`, the service calls it makes in order, and the state
of the `req.body` object when it finishes. -/
structure Outcome : Type where
  response : Response
  logged : List JsError
  calls : List SvcCall
  finalBody : List (String × JsVal)

/-- `transactionData.txn_date = new Date(transactionData.txn_date)`:
the in-place date coercion done by the create and update handlers. -/
def coerceBody (b : List (String × JsVal)) : List (String × JsVal) :=
  setField b "txn_date" (.date (lookupField b "txn_date"))

/-- `if (d) { d = new Date(d); }`: the conditional date coercion the list
handler applies to `startDate` and `endDate`. -/
def coerceDateParam (d : JsVal) : JsVal :=
  if truthy d then .date d else d

/-- Handler for `POST /transactions`: coerce `txn_date` in place, call
`transactionService.createTransaction`, re-fetch the full transaction by the
returned id, send it; any rejection is logged and answered with 500. -/
def createTransaction (svc : TransactionService) (req : Request) : Outcome :=
  match svc.createTransaction (.obj (coerceBody req.body)) with
  | .error e =>
    ⟨⟨500, some (msgObj e.str)⟩, [e], [.create (.obj (coerceBody req.body))],
      coerceBody req.body⟩
  | .ok transaction =>
    match svc.getTransaction (jsGet transaction "id") with
    | .ok full =>
      ⟨⟨200, some full⟩, [],
        [.create (.obj (coerceBody req.body)), .get (jsGet transaction "id")],
        coerceBody req.body⟩
    | .error e =>
      ⟨⟨500, some (msgObj e.str)⟩, [e],
        [.create (.obj (coerceBody req.body)), .get (jsGet transaction "id")],
        coerceBody req.body⟩

/-- Handler for `PUT /transactions/:id`: same shape as create, delegating to
`transactionService.updateTransaction` first. -/
def updateTransaction (svc : TransactionService) (req : Request) : Outcome :=
  match svc.updateTransaction (.obj (coerceBody req.body)) with
  | .error e =>
    ⟨⟨500, some (msgObj e.str)⟩, [e], [.update (.obj (coerceBody req.body))],
      coerceBody req.body⟩
  | .ok transaction =>
    match svc.getTransaction (jsGet transaction "id") with
    | .ok full =>
      ⟨⟨200, some full⟩, [],
        [.update (.obj (coerceBody req.body)), .get (jsGet transaction "id")],
        coerceBody req.body⟩
    | .error e =>
      ⟨⟨500, some (msgObj e.str)⟩, [e],
        [.update (.obj (coerceBody req.body)), .get (jsGet transaction "id")],
        coerceBody req.body⟩

/-- Handler for `GET /transactions/:id`: a not-found rejection is answered
404 with a templated message and is not logged; any other rejection is
logged and answered 500. -/
def getTransaction (svc : TransactionService) (req : Request) : Outcome :=
  match svc.getTransaction (.str req.paramId) with
  | .ok transaction =>
    ⟨⟨200, some transaction⟩, [], [.get (.str req.paramId)], req.body⟩
  | .error e =>
    match e.kind with
    | .notFound =>
      ⟨⟨404, some (msgObj ("Transaction " ++ req.paramId ++ " does not exist"))⟩,
        [], [.get (.str req.paramId)], req.body⟩
    | .generic =>
      ⟨⟨500, some (msgObj e.str)⟩, [e], [.get (.str req.paramId)], req.body⟩

/-- Handler for `GET /transactions`: if `groupByCategory` is defined, call
the category-grouped listing with the conditionally coerced dates; otherwise
call the flat listing with the `account` parameter (possibly undefined). -/
def getTransactions (svc : TransactionService) (req : Request) : Outcome :=
  if isDefined req.queryGroupByCategory then
    match svc.getTransactionsByCategory (coerceDateParam req.queryStartDate)
        (coerceDateParam req.queryEndDate) with
    | .ok v =>
      ⟨⟨200, some v⟩, [],
        [.byCategory (coerceDateParam req.queryStartDate)
          (coerceDateParam req.queryEndDate)], req.body⟩
    | .error e =>
      ⟨⟨500, some (msgObj e.str)⟩, [e],
        [.byCategory (coerceDateParam req.queryStartDate)
          (coerceDateParam req.queryEndDate)], req.body⟩
  else
    match svc.getTransactions req.queryAccount with
    | .ok v => ⟨⟨200, some v⟩, [], [.list req.queryAccount], req.body⟩
    | .error e =>
      ⟨⟨500, some (msgObj e.str)⟩, [e], [.list req.queryAccount], req.body⟩

/-- Handler for `DELETE /transactions/:id`: on fulfilment answer
`204 No Content` with an empty body; on rejection log and answer 500. -/
def deleteTransaction (svc : TransactionService) (req : Request) : Outcome :=
  match svc.deleteTransaction (.str req.paramId) with
  | .ok _ => ⟨⟨204, none⟩, [], [.delete (.str req.paramId)], req.body⟩
  | .error e =>
    ⟨⟨500, some (msgObj e.str)⟩, [e], [.delete (.str req.paramId)], req.body⟩

/-- The route table installed by `addRoutes`. -/
def addRoutes : List (String × String) :=
  [("POST", "/transactions"), ("PUT", "/transactions/:id"),
   ("GET", "/transactions/:id"), ("GET", "/transactions"),
   ("DELETE", "/transactions/:id")]

/-! ### Concrete fixtures used by the witnesses -/

/-- A sample create/update request body: `txn_date` as an ISO string plus
two other fields. -/
def bodyW : List (String × JsVal) :=
  [("txn_date", .str "2014-01-05"), ("payee", .str "Grocer"),
   ("amount", .num (-50))]

/-- A sample request carrying `bodyW`, with path id "42" and no query
parameters. -/
def reqW : Request :=
  ⟨"42", bodyW, .undefined, .undefined, .undefined, .undefined⟩

/-- A sample grouped-listing request: `groupByCategory` present but empty,
`account` also supplied, both dates supplied. -/
def reqGrouped : Request :=
  ⟨"42", bodyW, .str "3", .str "", .str "2014-01-01", .str "2014-12-31"⟩

/-- What a mutating service call returns: just the raw stored columns. -/
def minimal7 : JsVal := .obj [("id", .num 7)]

/-- What re-fetching returns: the hydrated record with joined fields. -/
def hydrated7 : JsVal :=
  .obj [("id", .num 7), ("account", .str "Checking"),
    ("category", .str "Groceries")]

/-- A service oracle on which every call is fulfilled. -/
def svcHappy : TransactionService :=
  ⟨fun _ => .ok minimal7, fun _ => .ok minimal7, fun _ => .ok hydrated7,
   fun _ => .ok (.arr [hydrated7]), fun _ _ => .ok (.arr [hydrated7]),
   fun _ => .ok .undefined⟩

/-- A not-found service error. -/
def nfError : JsError := ⟨.notFound, "NotFoundError: transaction not found"⟩

/-- A generic service error. -/
def genError : JsError := ⟨.generic, "Error: database is down"⟩

/-- A service oracle on which every call is rejected with `nfError`. -/
def svcNF : TransactionService :=
  ⟨fun _ => .error nfError, fun _ => .error nfError, fun _ => .error nfError,
   fun _ => .error nfError, fun _ _ => .error nfError,
   fun _ => .error nfError⟩

/-- A service oracle on which every call is rejected with `genError`. -/
def svcGen : TransactionService :=
  ⟨fun _ => .error genError, fun _ => .error genError,
   fun _ => .error genError, fun _ => .error genError,
   fun _ _ => .error genError, fun _ => .error genError⟩

/-- A grouped-listing request with `startDate` present but empty and
`endDate` supplied. -/
def reqEmptyStart : Request :=
  ⟨"42", bodyW, .undefined, .str "", .str "", .str "2014-12-31"⟩

/-- A grouped-listing request with `startDate` present but empty and
`endDate` absent. -/
def reqC9 : Request :=
  ⟨"42", bodyW, .undefined, .str "", .str "", .undefined⟩

/-- Whether a JS value is a date object. -/
def isDateVal : JsVal → Bool
  | .date _ => true
  | _ => false

/-! ### Helper lemmas on JS object field assignment -/

/-- Reading back the field just assigned gives the assigned value. -/
theorem lookupField_setField_eq (b : List (String × JsVal)) (k : String)
    (v : JsVal) : lookupField (setField b k v) k = v := by
  induction b with
  | nil => simp [setField, lookupField]
  | cons p rest ih =>
    obtain ⟨k1, v1⟩ := p
    by_cases h : k1 = k
    · simp [setField, lookupField, h]
    · simp [setField, lookupField, h, ih]

/-- Assigning one field leaves every other field unchanged. -/
theorem lookupField_setField_ne (b : List (String × JsVal)) (k k' : String)
    (v : JsVal) (h : k' ≠ k) :
    lookupField (setField b k v) k' = lookupField b k' := by
  have h2 : ¬ (k = k') := fun hh => h hh.symm
  induction b with
  | nil => simp [setField, lookupField, h2]
  | cons p rest ih =>
    obtain ⟨k1, v1⟩ := p
    by_cases h1 : k1 = k
    · subst h1; simp [setField, lookupField, h2]
    · simp [setField, lookupField, h1, ih]

/-! ### Claims -/

/-- Claim C1: for every create and update request whose service calls
succeed, the handler re-fetches the full record via `getTransaction` at the
id of the value returned by the mutating call, and the response body is the
re-fetched record, not the mutation's own return value. -/
theorem create_update_refetch_hydrated (svc : TransactionService)
    (req : Request) (t full t2 full2 : JsVal)
    (hc : svc.createTransaction (.obj (coerceBody req.body)) = .ok t)
    (hg : svc.getTransaction (jsGet t "id") = .ok full)
    (hu : svc.updateTransaction (.obj (coerceBody req.body)) = .ok t2)
    (hg2 : svc.getTransaction (jsGet t2 "id") = .ok full2) :
    (createTransaction svc req).response = ⟨200, some full⟩ ∧
    (createTransaction svc req).calls =
      [.create (.obj (coerceBody req.body)), .get (jsGet t "id")] ∧
    (updateTransaction svc req).response = ⟨200, some full2⟩ ∧
    (updateTransaction svc req).calls =
      [.update (.obj (coerceBody req.body)), .get (jsGet t2 "id")] := by
  simp [createTransaction, updateTransaction, hc, hg, hu, hg2]

/-- Witness for C1, at a concrete service on which the mutating call returns
`minimal7` while the re-fetch returns the distinct hydrated record
`hydrated7`: the response carries `hydrated7`. -/
theorem create_update_refetch_hydrated_witness :
    (createTransaction svcHappy reqW).response = ⟨200, some hydrated7⟩ ∧
    (createTransaction svcHappy reqW).calls =
      [.create (.obj (coerceBody bodyW)), .get (jsGet minimal7 "id")] ∧
    (updateTransaction svcHappy reqW).response = ⟨200, some hydrated7⟩ ∧
    (updateTransaction svcHappy reqW).calls =
      [.update (.obj (coerceBody bodyW)), .get (jsGet minimal7 "id")] :=
  create_update_refetch_hydrated svcHappy reqW minimal7 hydrated7 minimal7
    hydrated7 rfl rfl rfl rfl

/-- Claim C2: the get handler answers 200 with the transaction on success,
404 with the templated message naming the requested id on a not-found
error, and 500 with the error's string rendering on any other error. -/
theorem get_responds_200_404_500 (svc : TransactionService) (req : Request) :
    (∀ t, svc.getTransaction (.str req.paramId) = .ok t →
      (getTransaction svc req).response = ⟨200, some t⟩) ∧
    (∀ e, svc.getTransaction (.str req.paramId) = .error e →
      e.kind = .notFound →
      (getTransaction svc req).response =
        ⟨404,
          some (msgObj ("Transaction " ++ req.paramId ++ " does not exist"))⟩) ∧
    (∀ e, svc.getTransaction (.str req.paramId) = .error e →
      e.kind = .generic →
      (getTransaction svc req).response = ⟨500, some (msgObj e.str)⟩) :=
  ⟨fun t ht => by simp [getTransaction, ht],
   fun e he hk => by simp [getTransaction, he, hk],
   fun e he hk => by simp [getTransaction, he, hk]⟩

/-- Witness for C2 at id "42": a not-found rejection yields the templated
404, a generic rejection yields its string in a 500, success yields 200. -/
theorem get_responds_200_404_500_witness :
    (getTransaction svcNF reqW).response =
      ⟨404, some (msgObj ("Transaction " ++ "42" ++ " does not exist"))⟩ ∧
    (getTransaction svcGen reqW).response =
      ⟨500, some (msgObj genError.str)⟩ ∧
    (getTransaction svcHappy reqW).response = ⟨200, some hydrated7⟩ :=
  ⟨(get_responds_200_404_500 svcNF reqW).2.1 nfError rfl rfl,
   (get_responds_200_404_500 svcGen reqW).2.2 genError rfl rfl,
   (get_responds_200_404_500 svcHappy reqW).1 hydrated7 rfl⟩

/-- Claim C3: on create, update, delete and list, every service error — the
error `e` below ranges over both kinds, not-found included — produces a 500
response carrying the error's string message; only the get handler maps
not-found to 404. -/
theorem non_get_error_always_500 (svc : TransactionService) (req : Request)
    (e : JsError) :
    (svc.createTransaction (.obj (coerceBody req.body)) = .error e →
      (createTransaction svc req).response = ⟨500, some (msgObj e.str)⟩) ∧
    (∀ t, svc.createTransaction (.obj (coerceBody req.body)) = .ok t →
      svc.getTransaction (jsGet t "id") = .error e →
      (createTransaction svc req).response = ⟨500, some (msgObj e.str)⟩) ∧
    (svc.updateTransaction (.obj (coerceBody req.body)) = .error e →
      (updateTransaction svc req).response = ⟨500, some (msgObj e.str)⟩) ∧
    (∀ t, svc.updateTransaction (.obj (coerceBody req.body)) = .ok t →
      svc.getTransaction (jsGet t "id") = .error e →
      (updateTransaction svc req).response = ⟨500, some (msgObj e.str)⟩) ∧
    (svc.deleteTransaction (.str req.paramId) = .error e →
      (deleteTransaction svc req).response = ⟨500, some (msgObj e.str)⟩) ∧
    (isDefined req.queryGroupByCategory = true →
      svc.getTransactionsByCategory (coerceDateParam req.queryStartDate)
        (coerceDateParam req.queryEndDate) = .error e →
      (getTransactions svc req).response = ⟨500, some (msgObj e.str)⟩) ∧
    (isDefined req.queryGroupByCategory = false →
      svc.getTransactions req.queryAccount = .error e →
      (getTransactions svc req).response = ⟨500, some (msgObj e.str)⟩) :=
  ⟨fun h => by simp [createTransaction, h],
   fun t ht h => by simp [createTransaction, ht, h],
   fun h => by simp [updateTransaction, h],
   fun t ht h => by simp [updateTransaction, ht, h],
   fun h => by simp [deleteTransaction, h],
   fun hd h => by simp [getTransactions, hd, h],
   fun hd h => by simp [getTransactions, hd, h]⟩

/-- Witness for C3 with a not-found error on every operation: create,
update, delete and both list paths all answer 500, not 404. -/
theorem non_get_error_always_500_witness :
    (createTransaction svcNF reqW).response =
      ⟨500, some (msgObj nfError.str)⟩ ∧
    (updateTransaction svcNF reqW).response =
      ⟨500, some (msgObj nfError.str)⟩ ∧
    (deleteTransaction svcNF reqW).response =
      ⟨500, some (msgObj nfError.str)⟩ ∧
    (getTransactions svcNF reqGrouped).response =
      ⟨500, some (msgObj nfError.str)⟩ ∧
    (getTransactions svcNF reqW).response =
      ⟨500, some (msgObj nfError.str)⟩ :=
  ⟨(non_get_error_always_500 svcNF reqW nfError).1 rfl,
   (non_get_error_always_500 svcNF reqW nfError).2.2.1 rfl,
   (non_get_error_always_500 svcNF reqW nfError).2.2.2.2.1 rfl,
   (non_get_error_always_500 svcNF reqGrouped nfError).2.2.2.2.2.1 rfl rfl,
   (non_get_error_always_500 svcNF reqW nfError).2.2.2.2.2.2 rfl rfl⟩

/-- Claim C4: whenever the service's delete call succeeds the handler
answers 204 with an empty body, its only service call is the delete itself
(no existence check), and nothing is logged. -/
theorem delete_success_204_no_check (svc : TransactionService)
    (req : Request) (v : JsVal)
    (h : svc.deleteTransaction (.str req.paramId) = .ok v) :
    (deleteTransaction svc req).response = ⟨204, none⟩ ∧
    (deleteTransaction svc req).calls = [.delete (.str req.paramId)] ∧
    (deleteTransaction svc req).logged = [] := by
  simp [deleteTransaction, h]

/-- Witness for C4 at id "42" on a service whose delete call resolves with
`undefined` (as it would for a missing id). -/
theorem delete_success_204_no_check_witness :
    (deleteTransaction svcHappy reqW).response = ⟨204, none⟩ ∧
    (deleteTransaction svcHappy reqW).calls = [.delete (.str "42")] ∧
    (deleteTransaction svcHappy reqW).logged = [] :=
  delete_success_204_no_check svcHappy reqW .undefined rfl

/-- Claim C5: when `groupByCategory` is present the list handler calls the
category-grouped listing with the conditionally coerced start and end dates
and answers with the service result unmodified; otherwise it calls the flat
listing with the `account` parameter (possibly undefined, meaning all
accounts) and answers with its result. -/
theorem list_dispatch_on_groupByCategory (svc : TransactionService)
    (req : Request) :
    (isDefined req.queryGroupByCategory = true →
      (getTransactions svc req).calls =
        [.byCategory (coerceDateParam req.queryStartDate)
          (coerceDateParam req.queryEndDate)] ∧
      ∀ v, svc.getTransactionsByCategory (coerceDateParam req.queryStartDate)
          (coerceDateParam req.queryEndDate) = .ok v →
        (getTransactions svc req).response = ⟨200, some v⟩) ∧
    (isDefined req.queryGroupByCategory = false →
      (getTransactions svc req).calls = [.list req.queryAccount] ∧
      ∀ v, svc.getTransactions req.queryAccount = .ok v →
        (getTransactions svc req).response = ⟨200, some v⟩) := by
  constructor
  · intro hd
    constructor
    · cases hc : svc.getTransactionsByCategory
          (coerceDateParam req.queryStartDate)
          (coerceDateParam req.queryEndDate) <;>
        simp [getTransactions, hd, hc]
    · intro v hv
      simp [getTransactions, hd, hv]
  · intro hd
    constructor
    · cases hc : svc.getTransactions req.queryAccount <;>
        simp [getTransactions, hd, hc]
    · intro v hv
      simp [getTransactions, hd, hv]

/-- Witness for C5: a grouped request calls the category listing with both
dates coerced and returns the service's array unmodified; a plain request
with no `account` calls the flat listing with `undefined`. -/
theorem list_dispatch_on_groupByCategory_witness :
    (getTransactions svcHappy reqGrouped).calls =
      [.byCategory (.date (.str "2014-01-01")) (.date (.str "2014-12-31"))] ∧
    (getTransactions svcHappy reqGrouped).response =
      ⟨200, some (.arr [hydrated7])⟩ ∧
    (getTransactions svcHappy reqW).calls = [.list .undefined] ∧
    (getTransactions svcHappy reqW).response =
      ⟨200, some (.arr [hydrated7])⟩ :=
  ⟨((list_dispatch_on_groupByCategory svcHappy reqGrouped).1 rfl).1,
   ((list_dispatch_on_groupByCategory svcHappy reqGrouped).1 rfl).2
     (.arr [hydrated7]) rfl,
   ((list_dispatch_on_groupByCategory svcHappy reqW).2 rfl).1,
   ((list_dispatch_on_groupByCategory svcHappy reqW).2 rfl).2
     (.arr [hydrated7]) rfl⟩

/-- Counterexample to C6 as stated: on `reqEmptyStart` the `startDate`
query parameter is present (defined) but empty, and the argument actually
passed to the category listing is the uncoerced empty string, not a date
value. -/
theorem present_empty_startDate_not_coerced :
    (getTransactions svcHappy reqEmptyStart).calls =
      [.byCategory (.str "") (.date (.str "2014-12-31"))] ∧
    isDefined (.str "") = true ∧
    isDateVal (.str "") = false :=
  ⟨rfl, rfl, rfl⟩

/-- Amended C6: the layer coerces `txn_date` unconditionally on create and
update bodies, and `startDate`/`endDate` on list requests exactly when
truthy (present and non-empty); it applies no other transformation — the
remaining body fields, the `account` parameter and the path id are delegated
unchanged. -/
theorem date_coercion_is_only_transformation (svc : TransactionService)
    (req : Request) :
    ((createTransaction svc req).calls.head? =
        some (.create (.obj (coerceBody req.body))) ∧
      (updateTransaction svc req).calls.head? =
        some (.update (.obj (coerceBody req.body)))) ∧
    (∀ k, k ≠ "txn_date" →
      lookupField (coerceBody req.body) k = lookupField req.body k) ∧
    (truthy req.queryStartDate = true →
      coerceDateParam req.queryStartDate = .date req.queryStartDate) ∧
    (truthy req.queryStartDate = false →
      coerceDateParam req.queryStartDate = req.queryStartDate) ∧
    (truthy req.queryEndDate = true →
      coerceDateParam req.queryEndDate = .date req.queryEndDate) ∧
    (truthy req.queryEndDate = false →
      coerceDateParam req.queryEndDate = req.queryEndDate) ∧
    (isDefined req.queryGroupByCategory = true →
      (getTransactions svc req).calls =
        [.byCategory (coerceDateParam req.queryStartDate)
          (coerceDateParam req.queryEndDate)]) ∧
    (isDefined req.queryGroupByCategory = false →
      (getTransactions svc req).calls = [.list req.queryAccount]) ∧
    (getTransaction svc req).calls = [.get (.str req.paramId)] ∧
    (deleteTransaction svc req).calls = [.delete (.str req.paramId)] := by
  refine ⟨⟨?_, ?_⟩, ?_, ?_, ?_, ?_, ?_, ?_, ?_, ?_, ?_⟩
  · cases hc : svc.createTransaction (.obj (coerceBody req.body)) with
    | error e => simp [createTransaction, hc]
    | ok t =>
      cases hg : svc.getTransaction (jsGet t "id") <;>
        simp [createTransaction, hc, hg]
  · cases hc : svc.updateTransaction (.obj (coerceBody req.body)) with
    | error e => simp [updateTransaction, hc]
    | ok t =>
      cases hg : svc.getTransaction (jsGet t "id") <;>
        simp [updateTransaction, hc, hg]
  · intro k hk
    exact lookupField_setField_ne req.body "txn_date" k
      (.date (lookupField req.body "txn_date")) hk
  · intro h; simp [coerceDateParam, h]
  · intro h; simp [coerceDateParam, h]
  · intro h; simp [coerceDateParam, h]
  · intro h; simp [coerceDateParam, h]
  · intro hd
    cases hc : svc.getTransactionsByCategory
        (coerceDateParam req.queryStartDate)
        (coerceDateParam req.queryEndDate) <;>
      simp [getTransactions, hd, hc]
  · intro hd
    cases hc : svc.getTransactions req.queryAccount <;>
      simp [getTransactions, hd, hc]
  · cases hc : svc.getTransaction (.str req.paramId) with
    | error e => cases hk : e.kind <;> simp [getTransaction, hc, hk]
    | ok t => simp [getTransaction, hc]
  · cases hc : svc.deleteTransaction (.str req.paramId) <;>
      simp [deleteTransaction, hc]

/-- Witness for the amended C6: the coerced body is what create sends, the
`payee` field survives unchanged, a non-empty date is coerced while an empty
one is passed through, and id and account are delegated verbatim. -/
theorem date_coercion_is_only_transformation_witness :
    (createTransaction svcHappy reqW).calls.head? =
      some (.create (.obj (coerceBody bodyW))) ∧
    lookupField (coerceBody bodyW) "payee" = lookupField bodyW "payee" ∧
    coerceDateParam (.str "2014-01-01") = .date (.str "2014-01-01") ∧
    coerceDateParam (.str "") = .str "" ∧
    (getTransactions svcHappy reqW).calls = [.list .undefined] ∧
    (getTransaction svcHappy reqW).calls = [.get (.str "42")] :=
  ⟨(date_coercion_is_only_transformation svcHappy reqW).1.1,
   (date_coercion_is_only_transformation svcHappy reqW).2.1 "payee"
     (by decide),
   (date_coercion_is_only_transformation svcHappy reqGrouped).2.2.1
     (by decide),
   (date_coercion_is_only_transformation svcHappy reqC9).2.2.2.1 (by decide),
   (date_coercion_is_only_transformation svcHappy reqW).2.2.2.2.2.2.2.1 rfl,
   (date_coercion_is_only_transformation svcHappy reqW).2.2.2.2.2.2.2.2.1⟩

/-- Claim C7: every service error is handled inside the handler itself —
each handler is a total function producing exactly one response — the error
is passed to the log's error sink in the generic case, and the error
response body is `{message: e.toString()}`; the not-found branch of get is
the single error path that logs nothing. -/
theorem errors_caught_logged_and_shaped (svc : TransactionService)
    (req : Request) (e : JsError) :
    (svc.createTransaction (.obj (coerceBody req.body)) = .error e →
      (createTransaction svc req).logged = [e] ∧
      (createTransaction svc req).response.body = some (msgObj e.str)) ∧
    (∀ t, svc.createTransaction (.obj (coerceBody req.body)) = .ok t →
      svc.getTransaction (jsGet t "id") = .error e →
      (createTransaction svc req).logged = [e] ∧
      (createTransaction svc req).response.body = some (msgObj e.str)) ∧
    (svc.updateTransaction (.obj (coerceBody req.body)) = .error e →
      (updateTransaction svc req).logged = [e] ∧
      (updateTransaction svc req).response.body = some (msgObj e.str)) ∧
    (∀ t, svc.updateTransaction (.obj (coerceBody req.body)) = .ok t →
      svc.getTransaction (jsGet t "id") = .error e →
      (updateTransaction svc req).logged = [e] ∧
      (updateTransaction svc req).response.body = some (msgObj e.str)) ∧
    (svc.deleteTransaction (.str req.paramId) = .error e →
      (deleteTransaction svc req).logged = [e] ∧
      (deleteTransaction svc req).response.body = some (msgObj e.str)) ∧
    (isDefined req.queryGroupByCategory = true →
      svc.getTransactionsByCategory (coerceDateParam req.queryStartDate)
        (coerceDateParam req.queryEndDate) = .error e →
      (getTransactions svc req).logged = [e] ∧
      (getTransactions svc req).response.body = some (msgObj e.str)) ∧
    (isDefined req.queryGroupByCategory = false →
      svc.getTransactions req.queryAccount = .error e →
      (getTransactions svc req).logged = [e] ∧
      (getTransactions svc req).response.body = some (msgObj e.str)) ∧
    (svc.getTransaction (.str req.paramId) = .error e → e.kind = .generic →
      (getTransaction svc req).logged = [e] ∧
      (getTransaction svc req).response.body = some (msgObj e.str)) ∧
    (svc.getTransaction (.str req.paramId) = .error e → e.kind = .notFound →
      (getTransaction svc req).logged = [] ∧
      (getTransaction svc req).response =
        ⟨404,
          some (msgObj ("Transaction " ++ req.paramId ++
            " does not exist"))⟩) :=
  ⟨fun h => by simp [createTransaction, h],
   fun t ht h => by simp [createTransaction, ht, h],
   fun h => by simp [updateTransaction, h],
   fun t ht h => by simp [updateTransaction, ht, h],
   fun h => by simp [deleteTransaction, h],
   fun hd h => by simp [getTransactions, hd, h],
   fun hd h => by simp [getTransactions, hd, h],
   fun h hk => by simp [getTransaction, h, hk],
   fun h hk => by simp [getTransaction, h, hk]⟩

/-- Witness for C7: a generic error on create is logged and shaped into a
`{message}` body, and a not-found error on get answers 404 with nothing
logged. -/
theorem errors_caught_logged_and_shaped_witness :
    ((createTransaction svcGen reqW).logged = [genError] ∧
      (createTransaction svcGen reqW).response.body =
        some (msgObj genError.str)) ∧
    ((getTransaction svcNF reqW).logged = [] ∧
      (getTransaction svcNF reqW).response =
        ⟨404, some (msgObj ("Transaction " ++ "42" ++ " does not exist"))⟩) :=
  ⟨(errors_caught_logged_and_shaped svcGen reqW genError).1 rfl,
   (errors_caught_logged_and_shaped svcNF reqW
     nfError).2.2.2.2.2.2.2.2 rfl rfl⟩

/-- Claim C8: the list handler tests `groupByCategory` for definedness, not
truthiness, so a present-but-empty value takes the grouped path; on that
path the whole outcome is independent of the `account` parameter, which is
read but never used. -/
theorem groupByCategory_definedness_precedence (svc : TransactionService)
    (req : Request) (a : JsVal)
    (h : isDefined req.queryGroupByCategory = true) :
    (getTransactions svc req).calls =
      [.byCategory (coerceDateParam req.queryStartDate)
        (coerceDateParam req.queryEndDate)] ∧
    getTransactions svc { req with queryAccount := a } =
      getTransactions svc req := by
  constructor
  · cases hc : svc.getTransactionsByCategory
        (coerceDateParam req.queryStartDate)
        (coerceDateParam req.queryEndDate) <;>
      simp [getTransactions, h, hc]
  · simp [getTransactions, h]

/-- Witness for C8 at `reqGrouped`, whose `groupByCategory` is the empty
string — present but falsy: the grouped path is taken and replacing the
supplied `account` value changes nothing. -/
theorem groupByCategory_definedness_precedence_witness :
    (getTransactions svcHappy reqGrouped).calls =
      [.byCategory (.date (.str "2014-01-01")) (.date (.str "2014-12-31"))] ∧
    getTransactions svcHappy { reqGrouped with queryAccount := .str "99" } =
      getTransactions svcHappy reqGrouped :=
  groupByCategory_definedness_precedence svcHappy reqGrouped (.str "99") rfl

/-- Counterexample to C9 as stated: on `reqC9` the `startDate` parameter is
empty (present), and what reaches the category listing is the empty string —
a defined value, not `undefined` — while the absent `endDate` is passed as
`undefined`. -/
theorem empty_startDate_passed_defined :
    (getTransactions svcHappy reqC9).calls =
      [.byCategory (.str "") .undefined] ∧
    isDefined (.str "") = true ∧
    isDefined .undefined = false :=
  ⟨rfl, rfl, rfl⟩

/-- Amended C9: on the category-grouped path an absent date parameter is
passed to `getTransactionsByCategory` as `undefined` and an empty one as the
empty string, in both cases uncoerced; the handler neither rejects the
request nor supplies a default range, and on service success still answers
200 with the service result. -/
theorem absent_or_empty_dates_passed_uncoerced (svc : TransactionService)
    (req : Request)
    (hd : isDefined req.queryGroupByCategory = true)
    (hs : req.queryStartDate = .undefined ∨ req.queryStartDate = .str "")
    (he : req.queryEndDate = .undefined ∨ req.queryEndDate = .str "") :
    (getTransactions svc req).calls =
      [.byCategory req.queryStartDate req.queryEndDate] ∧
    ∀ v, svc.getTransactionsByCategory req.queryStartDate req.queryEndDate =
        .ok v →
      (getTransactions svc req).response = ⟨200, some v⟩ := by
  have hs2 : coerceDateParam req.queryStartDate = req.queryStartDate := by
    rcases hs with h | h <;> rw [h] <;> rfl
  have he2 : coerceDateParam req.queryEndDate = req.queryEndDate := by
    rcases he with h | h <;> rw [h] <;> rfl
  constructor
  · cases hc : svc.getTransactionsByCategory req.queryStartDate
        req.queryEndDate <;>
      simp [getTransactions, hd, hs2, he2, hc]
  · intro v hv
    simp [getTransactions, hd, hs2, he2, hv]

/-- Witness for the amended C9 at `reqC9` (empty `startDate`, absent
`endDate`): the listing is called with the empty string and `undefined`, and
the request is answered 200 from the service result. -/
theorem absent_or_empty_dates_passed_uncoerced_witness :
    (getTransactions svcHappy reqC9).calls =
      [.byCategory (.str "") .undefined] ∧
    (getTransactions svcHappy reqC9).response =
      ⟨200, some (.arr [hydrated7])⟩ :=
  ⟨(absent_or_empty_dates_passed_uncoerced svcHappy reqC9 rfl (Or.inr rfl)
      (Or.inl rfl)).1,
   (absent_or_empty_dates_passed_uncoerced svcHappy reqC9 rfl (Or.inr rfl)
      (Or.inl rfl)).2 (.arr [hydrated7]) rfl⟩

/-- Claim C10: create and update mutate the request body in place — the
final state of `req.body` has `txn_date` overwritten with its date-coerced
value, the object handed to the mutating service call is that same final
body, and every other field is passed through unchanged. -/
theorem body_mutated_in_place (svc : TransactionService) (req : Request) :
    ((createTransaction svc req).finalBody = coerceBody req.body ∧
      (createTransaction svc req).calls.head? =
        some (.create (.obj ((createTransaction svc req).finalBody))) ∧
      (updateTransaction svc req).finalBody = coerceBody req.body ∧
      (updateTransaction svc req).calls.head? =
        some (.update (.obj ((updateTransaction svc req).finalBody)))) ∧
    lookupField (coerceBody req.body) "txn_date" =
      .date (lookupField req.body "txn_date") ∧
    ∀ k, k ≠ "txn_date" →
      lookupField (coerceBody req.body) k = lookupField req.body k := by
  refine ⟨⟨?_, ?_, ?_, ?_⟩,
    lookupField_setField_eq req.body "txn_date"
      (.date (lookupField req.body "txn_date")),
    fun k hk => lookupField_setField_ne req.body "txn_date" k
      (.date (lookupField req.body "txn_date")) hk⟩
  · cases hc : svc.createTransaction (.obj (coerceBody req.body)) with
    | error e => simp [createTransaction, hc]
    | ok t =>
      cases hg : svc.getTransaction (jsGet t "id") <;>
        simp [createTransaction, hc, hg]
  · cases hc : svc.createTransaction (.obj (coerceBody req.body)) with
    | error e => simp [createTransaction, hc]
    | ok t =>
      cases hg : svc.getTransaction (jsGet t "id") <;>
        simp [createTransaction, hc, hg]
  · cases hc : svc.updateTransaction (.obj (coerceBody req.body)) with
    | error e => simp [updateTransaction, hc]
    | ok t =>
      cases hg : svc.getTransaction (jsGet t "id") <;>
        simp [updateTransaction, hc, hg]
  · cases hc : svc.updateTransaction (.obj (coerceBody req.body)) with
    | error e => simp [updateTransaction, hc]
    | ok t =>
      cases hg : svc.getTransaction (jsGet t "id") <;>
        simp [updateTransaction, hc, hg]

/-- Witness for C10 on the concrete body `bodyW`: the final body is the
coerced one and it is what create sends, `txn_date` now holds the date
object built from its original string, and `payee` is untouched. -/
theorem body_mutated_in_place_witness :
    (createTransaction svcHappy reqW).finalBody = coerceBody bodyW ∧
    (createTransaction svcHappy reqW).calls.head? =
      some (.create (.obj ((createTransaction svcHappy reqW).finalBody))) ∧
    lookupField (coerceBody bodyW) "txn_date" = .date (.str "2014-01-05") ∧
    lookupField (coerceBody bodyW) "payee" = lookupField bodyW "payee" :=
  ⟨(body_mutated_in_place svcHappy reqW).1.1,
   (body_mutated_in_place svcHappy reqW).1.2.1,
   (body_mutated_in_place svcHappy reqW).2.1,
   (body_mutated_in_place svcHappy reqW).2.2 "payee" (by decide)⟩

end ManageMyMoney
